import Mathlib

/-!
Shallow embedding of the apiluck repository (FastAPI Tài/Xỉu data collector and
predictor) and verification of the frozen claims about it.

Conventions of the embedding:
* the two outcome strings "Tài" and "Xỉu" are modelled by the two-valued
  enumeration `Outcome`;
* Python ints are `Nat`, Python floats arising from ratios are `ℚ` (all the
  arithmetic the code performs on them is exact);
* the `Ty_le_thang` response string of `analyze_patterns_and_predict`, of the
  form "<percent>% (<rationale>)", is modelled by the pair of its exact percent
  value and a structured rationale tag;
* `random.choice` in the frequency fallback is modelled by an explicit `coin`
  parameter that the tie branch returns.
-/

/-- Outcome label of a session: "Tài" (High) or "Xỉu" (Low). -/
inductive Outcome
  | Tai
  | Xiu
deriving DecidableEq, Repr, Inhabited

/-- Result dictionary of `get_tai_xiu_result` (src/main.py, lines 55-68). -/
structure TaiXiuResult where
  tong : Nat
  xuc_xac_1 : Nat
  xuc_xac_2 : Nat
  xuc_xac_3 : Nat
  ket_qua : Outcome
deriving DecidableEq, Repr

/-- Embedding of `get_tai_xiu_result` (src/main.py, lines 55-68).  The Python
`ValueError` on a list whose length is not 3 is modelled by `none`. -/
def get_tai_xiu_result (xuc_xac_values : List Nat) : Option TaiXiuResult :=
  match xuc_xac_values with
  | [x1, x2, x3] =>
    let tong := x1 + x2 + x3
    let ket_qua := if 11 ≤ tong ∧ tong ≤ 17 then Outcome.Tai else Outcome.Xiu
    let ket_qua := if x1 = x2 ∧ x2 = x3 then Outcome.Xiu else ket_qua
    some ⟨tong, x1, x2, x3, ket_qua⟩
  | _ => none

/-- C1: for every input list of three dice values d1,d2,d3 each in 1..6, the
outcome deriver `get_tai_xiu_result` returns total exactly d1+d2+d3, returns
outcome Xỉu (Low) whenever d1=d2=d3 (even when the total lies in 11..17), and
otherwise returns Tài (High) if and only if 11 ≤ total ≤ 17. -/
theorem C1_outcome_deriver (d1 d2 d3 : Nat)
    (h1 : 1 ≤ d1 ∧ d1 ≤ 6) (h2 : 1 ≤ d2 ∧ d2 ≤ 6) (h3 : 1 ≤ d3 ∧ d3 ≤ 6) :
    (get_tai_xiu_result [d1, d2, d3]).map TaiXiuResult.tong = some (d1 + d2 + d3) ∧
    (d1 = d2 ∧ d2 = d3 →
      (get_tai_xiu_result [d1, d2, d3]).map TaiXiuResult.ket_qua = some Outcome.Xiu) ∧
    (¬(d1 = d2 ∧ d2 = d3) →
      ((get_tai_xiu_result [d1, d2, d3]).map TaiXiuResult.ket_qua = some Outcome.Tai ↔
        11 ≤ d1 + d2 + d3 ∧ d1 + d2 + d3 ≤ 17)) := by
  refine ⟨rfl, ?_, ?_⟩
  · intro htriple
    simp [get_tai_xiu_result, htriple]
  · intro htriple
    by_cases hrange : 11 ≤ d1 + d2 + d3 ∧ d1 + d2 + d3 ≤ 17
    · simp [get_tai_xiu_result, htriple, hrange]
    · simp [get_tai_xiu_result, htriple, hrange]

/-- C1 witness: the theorem applied to the concrete dice roll 3-4-5. -/
theorem C1_outcome_deriver_witness :
    (get_tai_xiu_result [3, 4, 5]).map TaiXiuResult.tong = some 12 ∧
    (get_tai_xiu_result [3, 4, 5]).map TaiXiuResult.ket_qua = some Outcome.Tai := by
  have h := C1_outcome_deriver 3 4 5 (by decide) (by decide) (by decide)
  exact ⟨h.1, (h.2.2 (by decide)).mpr (by decide)⟩

/-- The `Ket_qua_du_doan` field of the prediction dictionary returned by
`analyze_patterns_and_predict`: either a predicted outcome or one of the two
literal no-data messages of the source. -/
inductive DuDoan
  | ketQua (o : Outcome)
  | khongDuDuLieu
  | khongCoDuLieu
deriving DecidableEq, Repr

/-- Structured rationale part of the `Ty_le_thang` string: `bare` for a plain
percent with no rationale suffix, `cauBet i` for "theo cầu bệt dài i",
`cauDao` for "theo cầu đảo", `cau121` for "theo cầu 1-2-1/2-1-1", `cau112` for
"theo cầu 1-1-2", `thongKeChung` for "thống kê chung". -/
inductive TagLoai
  | bare
  | cauBet (i : Nat)
  | cauDao
  | cau121
  | cau112
  | thongKeChung
deriving DecidableEq, Repr

/-- Prediction dictionary of `analyze_patterns_and_predict`: the predicted
value together with the exact percent value and rationale tag encoded in the
`Ty_le_thang` string. -/
structure PredictResult where
  ket_qua_du_doan : DuDoan
  ty_le_percent : ℚ
  ty_le_tag : TagLoai
deriving DecidableEq, Repr

/-- Embedding of the streak ("cầu bệt") scan of `analyze_patterns_and_predict`
(src/main.py, lines 81-87): `for i in range(3, len(recent_history) + 1)`,
returning at the first `i` whose length-`i` prefix of `recent_history` is
constant.  `find?` returns the first such `i`, matching the early return. -/
def streak_scan (recent_history : List Outcome) : Option Nat :=
  (List.range' 3 (recent_history.length + 1 - 3)).find? (fun i =>
    let current_sequence := recent_history.take i
    current_sequence.all (fun x => x = current_sequence.headD Outcome.Tai))

/-- Embedding of the `is_alternating` scan of `analyze_patterns_and_predict`
(src/main.py, lines 90-94): true iff no two adjacent entries are equal. -/
def is_alternating : List Outcome → Bool
  | a :: b :: rest => a ≠ b && is_alternating (b :: rest)
  | _ => true

/-- Embedding of `analyze_patterns_and_predict` (src/main.py, lines 71-135).
The input is the outcome history as supplied by the caller (the API endpoint
supplies it most-recent-first); the function reverses it into
`recent_history` before applying the rule cascade, exactly as the source
does with `historical_results[::-1]`.  `coin` models `random.choice` in the
tie branch of the frequency fallback. -/
def analyze_patterns_and_predict (coin : Outcome) (historical_results : List Outcome) :
    PredictResult :=
  if historical_results.length < 5 then
    ⟨DuDoan.khongDuDuLieu, 0, TagLoai.bare⟩
  else
    let recent_history := historical_results.reverse
    match streak_scan recent_history with
    | some i =>
      ⟨DuDoan.ketQua ((recent_history.take i).headD Outcome.Tai),
        ((min 85 (50 + i * 5) : Nat) : ℚ), TagLoai.cauBet i⟩
    | none =>
      if 4 ≤ recent_history.length ∧ is_alternating recent_history = true then
        ⟨DuDoan.ketQua
          (if recent_history.headD Outcome.Tai = Outcome.Xiu then Outcome.Tai
           else Outcome.Xiu), 65, TagLoai.cauDao⟩
      else if 4 ≤ recent_history.length ∧
          recent_history.getD 0 Outcome.Tai = recent_history.getD 3 Outcome.Tai ∧
          recent_history.getD 1 Outcome.Tai = recent_history.getD 2 Outcome.Tai ∧
          recent_history.getD 0 Outcome.Tai ≠ recent_history.getD 1 Outcome.Tai then
        ⟨DuDoan.ketQua (recent_history.getD 1 Outcome.Tai), 60, TagLoai.cau121⟩
      else if 4 ≤ recent_history.length ∧
          recent_history.getD 0 Outcome.Tai = recent_history.getD 2 Outcome.Tai ∧
          recent_history.getD 2 Outcome.Tai = recent_history.getD 3 Outcome.Tai ∧
          recent_history.getD 0 Outcome.Tai ≠ recent_history.getD 1 Outcome.Tai then
        ⟨DuDoan.ketQua (recent_history.getD 1 Outcome.Tai), 58, TagLoai.cau112⟩
      else
        let tai_count := historical_results.count Outcome.Tai
        let xiu_count := historical_results.count Outcome.Xiu
        let total_count := historical_results.length
        if total_count = 0 then
          ⟨DuDoan.khongCoDuLieu, 0, TagLoai.bare⟩
        else if xiu_count < tai_count then
          ⟨DuDoan.ketQua Outcome.Tai, (tai_count : ℚ) / (total_count : ℚ) * 100,
            TagLoai.thongKeChung⟩
        else if tai_count < xiu_count then
          ⟨DuDoan.ketQua Outcome.Xiu, (xiu_count : ℚ) / (total_count : ℚ) * 100,
            TagLoai.thongKeChung⟩
        else
          ⟨DuDoan.ketQua coin, 50, TagLoai.thongKeChung⟩

/-- C6: for every outcome history with fewer than 5 entries, regardless of its
content, `analyze_patterns_and_predict` returns the "Không đủ dữ liệu để phân
tích cầu" result with zero confidence, applying none of the cascade rules. -/
theorem C6_insufficient_data (coin : Outcome) (historical_results : List Outcome)
    (hlen : historical_results.length < 5) :
    analyze_patterns_and_predict coin historical_results =
      ⟨DuDoan.khongDuDuLieu, 0, TagLoai.bare⟩ := by
  simp [analyze_patterns_and_predict, hlen]

/-- C6 witness: the theorem applied to a concrete history of length 4. -/
theorem C6_insufficient_data_witness :
    analyze_patterns_and_predict Outcome.Tai
        [Outcome.Tai, Outcome.Tai, Outcome.Tai, Outcome.Tai] =
      ⟨DuDoan.khongDuDuLieu, 0, TagLoai.bare⟩ :=
  C6_insufficient_data Outcome.Tai _ (by decide)

/-- The streak scan fires at its first index 3 as soon as the first three
entries of the scanned list agree; the ascending loop never reports a longer
run. -/
theorem streak_scan_cons_three (o : Outcome) (t : List Outcome) :
    streak_scan (o :: o :: o :: t) = some 3 := by
  unfold streak_scan
  have hlen : (o :: o :: o :: t).length + 1 - 3 = t.length + 1 := by
    simp only [List.length_cons]
    omega
  rw [hlen, List.range'_succ]
  apply List.find?_cons_of_pos
  simp

/-- The streak scan never fires when the first two scanned entries differ:
every prefix of length at least 3 contains both of them. -/
theorem streak_scan_none_of_ne (x y : Outcome) (t : List Outcome) (hxy : x ≠ y) :
    streak_scan (x :: y :: t) = none := by
  have hyx : y ≠ x := Ne.symm hxy
  unfold streak_scan
  rw [List.find?_eq_none]
  intro i hi
  have h3 : 3 ≤ i := (List.mem_range'_1.mp hi).1
  obtain ⟨k, rfl⟩ : ∃ k, i = k + 2 := ⟨i - 2, by omega⟩
  simp [List.take_succ_cons, hyx]

/-- The boolean adjacent-difference scan agrees with chained inequality. -/
theorem is_alternating_iff_chain (l : List Outcome) :
    is_alternating l = true ↔ List.Chain' (fun a b => a ≠ b) l := by
  induction l with
  | nil => simp [is_alternating]
  | cons a t ih =>
    cases t with
    | nil => simp [is_alternating]
    | cons b t2 =>
      rw [is_alternating]
      simp only [Bool.and_eq_true, decide_eq_true_eq, List.chain'_cons, ih,
        bne_iff_ne, ne_eq]


/-- Reversing a list preserves the adjacent-difference scan. -/
theorem is_alternating_reverse (l : List Outcome) :
    is_alternating l.reverse = true ↔ is_alternating l = true := by
  rw [is_alternating_iff_chain, is_alternating_iff_chain, List.chain'_reverse]
  constructor
  · exact fun hc => hc.imp fun a b hab => Ne.symm hab
  · exact fun hc => hc.imp fun a b hab => Ne.symm hab

/-- C2 counterexample: the history [Tài, Tài, Tài, Tài, Xỉu] (most-recent-first)
has a prefix run of length 4, yet the code answers with the frequency
fallback (80%, "thống kê chung"), not with the run rule and a run-scaled
confidence: the code reverses the history first, so the run rule looks at the
oldest entries. -/
theorem C2_run_rule_counterexample :
    analyze_patterns_and_predict Outcome.Tai
        [Outcome.Tai, Outcome.Tai, Outcome.Tai, Outcome.Tai, Outcome.Xiu] =
      ⟨DuDoan.ketQua Outcome.Tai, 80, TagLoai.thongKeChung⟩ ∧
    TagLoai.thongKeChung ≠ TagLoai.cauBet 4 := by
  constructor
  · simp [analyze_patterns_and_predict, streak_scan, is_alternating,
      show List.range' 3 3 = [3, 4, 5] from rfl, List.find?]
    norm_num
  · decide

/-- C2 amended: the run rule of `analyze_patterns_and_predict` examines the
reversed history, so it fires exactly when the three OLDEST outcomes agree,
and the ascending loop always reports run length 3, hence the fixed
confidence min(85, 50 + 3*5) = 65; it then predicts that oldest outcome,
before any other rule. -/
theorem C2_run_rule_amended (coin o : Outcome) (h : List Outcome)
    (hlen : 5 ≤ h.length) (hrun : h.reverse.take 3 = [o, o, o]) :
    analyze_patterns_and_predict coin h =
      ⟨DuDoan.ketQua o, 65, TagLoai.cauBet 3⟩ := by
  rcases hrev : h.reverse with _ | ⟨x0, _ | ⟨x1, _ | ⟨x2, t⟩⟩⟩ <;>
    rw [hrev] at hrun <;> simp at hrun
  obtain ⟨rfl, rfl, rfl⟩ := hrun
  have hlen5 : ¬ h.length < 5 := by omega
  simp only [analyze_patterns_and_predict, if_neg hlen5, hrev,
    streak_scan_cons_three]
  norm_num

/-- C2 amended witness: history [Xỉu, Xỉu, Tài, Tài, Tài] most-recent-first;
its three oldest outcomes are Tài, and the run rule answers Tài at 65%. -/
theorem C2_run_rule_amended_witness :
    analyze_patterns_and_predict Outcome.Tai
        [Outcome.Xiu, Outcome.Xiu, Outcome.Tai, Outcome.Tai, Outcome.Tai] =
      ⟨DuDoan.ketQua Outcome.Tai, 65, TagLoai.cauBet 3⟩ :=
  C2_run_rule_amended Outcome.Tai Outcome.Tai _ (by decide) (by decide)

/-- C4 counterexample: the strictly alternating history
[Tài, Xỉu, Tài, Xỉu, Tài, Xỉu] (most-recent-first, even length) makes the
alternation rule fire, but it predicts Tài — the continuation of the
alternation would be the opposite of the most recent entry Tài, namely Xỉu.
The code takes the opposite of the OLDEST entry because it reverses first. -/
theorem C4_alternation_counterexample :
    analyze_patterns_and_predict Outcome.Tai
        [Outcome.Tai, Outcome.Xiu, Outcome.Tai, Outcome.Xiu, Outcome.Tai,
          Outcome.Xiu] =
      ⟨DuDoan.ketQua Outcome.Tai, 65, TagLoai.cauDao⟩ ∧
    DuDoan.ketQua Outcome.Tai ≠ DuDoan.ketQua Outcome.Xiu := by
  constructor
  · simp [analyze_patterns_and_predict, streak_scan, is_alternating,
      show List.range' 3 4 = [3, 4, 5, 6] from rfl, List.find?]
  · decide

/-- C4 amended: when the whole history strictly alternates (length at least 5),
the alternation rule of `analyze_patterns_and_predict` fires and predicts the
opposite of the OLDEST outcome in the window — the code reverses the history
before the rule — which continues the alternation only when the window length
is odd. -/
theorem C4_alternation_amended (coin : Outcome) (h : List Outcome)
    (hlen : 5 ≤ h.length) (halt : is_alternating h = true) :
    analyze_patterns_and_predict coin h =
      ⟨DuDoan.ketQua
          (if h.getLastD Outcome.Tai = Outcome.Xiu then Outcome.Tai
           else Outcome.Xiu), 65, TagLoai.cauDao⟩ := by
  have hralt : is_alternating h.reverse = true := (is_alternating_reverse h).mpr halt
  have hlenrev : h.reverse.length = h.length := List.length_reverse h
  rcases hrev : h.reverse with _ | ⟨a, _ | ⟨b, t⟩⟩ <;> rw [hrev] at hlenrev <;>
    try (simp at hlenrev; omega)
  rw [hrev] at hralt
  have hab : a ≠ b := by
    rw [is_alternating, Bool.and_eq_true] at hralt
    simpa using hralt.1
  have hhead : (a :: b :: t).headD Outcome.Tai = h.getLastD Outcome.Tai := by
    rw [← hrev, List.headD_eq_head?, List.head?_reverse, List.getLastD_eq_getLast?]
  have hlen5 : ¬ h.length < 5 := by omega
  simp only [analyze_patterns_and_predict, if_neg hlen5, hrev,
    streak_scan_none_of_ne a b t hab]
  rw [if_pos ⟨by simp at hlenrev ⊢; omega, hralt⟩, hhead]

/-- C4 amended witness: the odd-length alternating history
[Tài, Xỉu, Tài, Xỉu, Tài]; the oldest entry is Tài, so the rule answers Xỉu. -/
theorem C4_alternation_amended_witness :
    analyze_patterns_and_predict Outcome.Tai
        [Outcome.Tai, Outcome.Xiu, Outcome.Tai, Outcome.Xiu, Outcome.Tai] =
      ⟨DuDoan.ketQua Outcome.Xiu, 65, TagLoai.cauDao⟩ :=
  C4_alternation_amended Outcome.Tai _ (by decide) (by decide)

/-- C5 counterexample: the history [Tài, Xỉu, Xỉu, Tài, Tài] (most-recent-first)
has the A-B-B-A shape on its first 4 entries with B = Xỉu, yet the code
answers with the frequency fallback (Tài, 60%, "thống kê chung"), not B with
the paired-motif rationale: the motif is matched against the reversed list. -/
theorem C5_motif_counterexample :
    analyze_patterns_and_predict Outcome.Tai
        [Outcome.Tai, Outcome.Xiu, Outcome.Xiu, Outcome.Tai, Outcome.Tai] =
      ⟨DuDoan.ketQua Outcome.Tai, 60, TagLoai.thongKeChung⟩ ∧
    TagLoai.thongKeChung ≠ TagLoai.cau121 := by
  constructor
  · simp [analyze_patterns_and_predict, streak_scan, is_alternating,
      show List.range' 3 3 = [3, 4, 5] from rfl, List.find?]
    norm_num
  · decide

/-- C5 amended: the A-B-B-A motif rule of `analyze_patterns_and_predict` is
matched against the REVERSED history, i.e. it fires when the four oldest
entries, read oldest-first, are A, B, B, A with A different from B (no earlier
rule can fire then), and it predicts B — the second-oldest entry — with the
"theo cầu 1-2-1/2-1-1" rationale at 60%. -/
theorem C5_motif_amended (coin a b : Outcome) (h : List Outcome)
    (hlen : 5 ≤ h.length) (hshape : h.reverse.take 4 = [a, b, b, a])
    (hne : a ≠ b) :
    analyze_patterns_and_predict coin h =
      ⟨DuDoan.ketQua b, 60, TagLoai.cau121⟩ := by
  rcases hrev : h.reverse with _ | ⟨x0, _ | ⟨x1, _ | ⟨x2, _ | ⟨x3, t⟩⟩⟩⟩ <;>
    rw [hrev] at hshape <;> simp at hshape
  rw [hshape.1, hshape.2.1, hshape.2.2.1, hshape.2.2.2] at hrev
  have hbb : ¬ is_alternating (a :: b :: b :: a :: t) = true := by
    rw [is_alternating, Bool.and_eq_true, is_alternating, Bool.and_eq_true]
    simp
  have hlen5 : ¬ h.length < 5 := by omega
  simp only [analyze_patterns_and_predict, if_neg hlen5, hrev,
    streak_scan_none_of_ne a b (b :: a :: t) hne]
  rw [if_neg (by exact fun hc => hbb hc.2)]
  rw [if_pos ⟨by simp, by simp, by simp, by simpa using hne⟩]
  rfl

/-- C5 amended witness: history [Tài, Xỉu, Tài, Tài, Xỉu] most-recent-first;
its reversal starts Xỉu, Tài, Tài, Xỉu (A-B-B-A with B = Tài), and the motif
rule answers Tài at 60%. -/
theorem C5_motif_amended_witness :
    analyze_patterns_and_predict Outcome.Tai
        [Outcome.Tai, Outcome.Xiu, Outcome.Tai, Outcome.Tai, Outcome.Xiu] =
      ⟨DuDoan.ketQua Outcome.Tai, 60, TagLoai.cau121⟩ :=
  C5_motif_amended Outcome.Tai Outcome.Xiu Outcome.Tai _ (by decide) (by decide)
    (by decide)

/-- Embedding of `FEATURE_COLUMNS` (src/features.py, lines 7-22): the fixed
name-and-order contract of the feature vector. -/
def FEATURE_COLUMNS : List String :=
  ["last_outcome_is_tai",
   "length_of_current_streak",
   "tai_ratio_last_5",
   "xiu_ratio_last_5",
   "tai_ratio_last_10",
   "xiu_ratio_last_10",
   "tai_ratio_last_20",
   "xiu_ratio_last_20",
   "num_switches_last_5",
   "num_switches_last_10",
   "is_alternating_last_4",
   "is_two_streak_alternating_last_6",
   "longest_tai_streak_last_20",
   "longest_xiu_streak_last_20"]

/-- Embedding of `_calculate_streak` (src/features.py, lines 24-32): length of
the leading run of `outcome_type`. -/
def calculate_streak : List Outcome → Outcome → Nat
  | [], _ => 0
  | res :: rest, outcome_type =>
    if res = outcome_type then 1 + calculate_streak rest outcome_type else 0

/-- Loop state of `_get_longest_streak`: `max_streak` and `current_streak`. -/
def get_longest_streak_loop : List Outcome → Outcome → Nat → Nat → Nat
  | [], _, max_streak, current_streak => max max_streak current_streak
  | r :: rest, o, max_streak, current_streak =>
    if r = o then get_longest_streak_loop rest o max_streak (current_streak + 1)
    else get_longest_streak_loop rest o (max max_streak current_streak) 0

/-- Embedding of `_get_longest_streak` (src/features.py, lines 34-46). -/
def get_longest_streak (results : List Outcome) (outcome_type : Outcome) : Nat :=
  if results = [] then 0 else get_longest_streak_loop results outcome_type 0 0

/-- Embedding of the switch counter of `extract_features` (src/features.py,
lines 78-83): number of adjacent unequal pairs. -/
def num_switches : List Outcome → Nat
  | a :: b :: rest => (if a ≠ b then 1 else 0) + num_switches (b :: rest)
  | _ => 0

/-- Windowed ratio of one outcome (src/features.py, lines 69-76):
`count / total if total > 0 else 0` over an already-truncated window. -/
def ratio_of (recent_results : List Outcome) (o : Outcome) : ℚ :=
  if 0 < recent_results.length then
    (recent_results.count o : ℚ) / (recent_results.length : ℚ)
  else 0

/-- Embedding of the alternating-pattern indicator of `extract_features`
(src/features.py, lines 89-96): the first four entries pairwise switch. -/
def is_alternating_last_4_feat : List Outcome → Bool
  | a :: b :: c :: d :: _ => a ≠ b && b ≠ c && c ≠ d
  | _ => false

/-- Embedding of the two-streak alternating indicator of `extract_features`
(src/features.py, lines 100-107) over the first six entries. -/
def is_two_streak_alternating_last_6_feat : List Outcome → Bool
  | a :: b :: c :: d :: e :: f :: _ =>
    a = b && b ≠ c && c = d && d ≠ e && e = f
  | _ => false

/-- The feature dictionary built by `extract_features` (src/features.py,
lines 55-112) for a non-empty history.  All values are carried as exact
rationals, matching the ints and floats the code stores. -/
structure Features where
  last_outcome_is_tai : ℚ
  length_of_current_streak : ℚ
  tai_ratio_last_5 : ℚ
  xiu_ratio_last_5 : ℚ
  tai_ratio_last_10 : ℚ
  xiu_ratio_last_10 : ℚ
  tai_ratio_last_20 : ℚ
  xiu_ratio_last_20 : ℚ
  num_switches_last_5 : ℚ
  num_switches_last_10 : ℚ
  is_alternating_last_4 : ℚ
  is_two_streak_alternating_last_6 : ℚ
  longest_tai_streak_last_20 : ℚ
  longest_xiu_streak_last_20 : ℚ
deriving DecidableEq, Repr

/-- The feature assignments of `extract_features` (src/features.py,
lines 55-112) on a non-empty history. -/
def build_features (historical_results_list : List Outcome) : Features :=
  let last_outcome := historical_results_list.headD Outcome.Tai
  let recent_5 := historical_results_list.take 5
  let recent_10 := historical_results_list.take 10
  let recent_20 := historical_results_list.take 20
  { last_outcome_is_tai := if last_outcome = Outcome.Tai then 1 else 0
    length_of_current_streak :=
      (calculate_streak historical_results_list last_outcome : ℚ)
    tai_ratio_last_5 := ratio_of recent_5 Outcome.Tai
    xiu_ratio_last_5 := ratio_of recent_5 Outcome.Xiu
    tai_ratio_last_10 := ratio_of recent_10 Outcome.Tai
    xiu_ratio_last_10 := ratio_of recent_10 Outcome.Xiu
    tai_ratio_last_20 := ratio_of recent_20 Outcome.Tai
    xiu_ratio_last_20 := ratio_of recent_20 Outcome.Xiu
    num_switches_last_5 := (num_switches recent_5 : ℚ)
    num_switches_last_10 := (num_switches recent_10 : ℚ)
    is_alternating_last_4 :=
      if is_alternating_last_4_feat historical_results_list then 1 else 0
    is_two_streak_alternating_last_6 :=
      if is_two_streak_alternating_last_6_feat historical_results_list then 1
      else 0
    longest_tai_streak_last_20 := (get_longest_streak recent_20 Outcome.Tai : ℚ)
    longest_xiu_streak_last_20 := (get_longest_streak recent_20 Outcome.Xiu : ℚ) }

/-- Reindexing of the feature dictionary into the `FEATURE_COLUMNS` order,
as `pd.DataFrame([features], columns=FEATURE_COLUMNS)` does (src/features.py,
line 115). -/
def feature_row (f : Features) : List (String × ℚ) :=
  [("last_outcome_is_tai", f.last_outcome_is_tai),
   ("length_of_current_streak", f.length_of_current_streak),
   ("tai_ratio_last_5", f.tai_ratio_last_5),
   ("xiu_ratio_last_5", f.xiu_ratio_last_5),
   ("tai_ratio_last_10", f.tai_ratio_last_10),
   ("xiu_ratio_last_10", f.xiu_ratio_last_10),
   ("tai_ratio_last_20", f.tai_ratio_last_20),
   ("xiu_ratio_last_20", f.xiu_ratio_last_20),
   ("num_switches_last_5", f.num_switches_last_5),
   ("num_switches_last_10", f.num_switches_last_10),
   ("is_alternating_last_4", f.is_alternating_last_4),
   ("is_two_streak_alternating_last_6", f.is_two_streak_alternating_last_6),
   ("longest_tai_streak_last_20", f.longest_tai_streak_last_20),
   ("longest_xiu_streak_last_20", f.longest_xiu_streak_last_20)]

/-- Embedding of `extract_features` (src/features.py, lines 48-115): the
single-row DataFrame is modelled as the ordered list of (column, value)
pairs. -/
def extract_features (historical_results_list : List Outcome) :
    List (String × ℚ) :=
  if historical_results_list.isEmpty then
    FEATURE_COLUMNS.map (fun c => (c, (0 : ℚ)))
  else feature_row (build_features historical_results_list)

/-- Helper: the output row of `extract_features` always carries exactly the
`FEATURE_COLUMNS` names in order. -/
theorem extract_features_columns (historical_results_list : List Outcome) :
    (extract_features historical_results_list).map Prod.fst = FEATURE_COLUMNS := by
  cases historical_results_list <;> rfl

/-- C7: for every input history, `extract_features` returns a row with exactly
the 14 columns of `FEATURE_COLUMNS` in that fixed order, and the empty history
yields the all-zero vector of that width. -/
theorem C7_feature_contract (historical_results_list : List Outcome) :
    ((extract_features historical_results_list).map Prod.fst = FEATURE_COLUMNS ∧
      (extract_features historical_results_list).length = 14) ∧
    extract_features [] = FEATURE_COLUMNS.map (fun c => (c, (0 : ℚ))) := by
  refine ⟨⟨extract_features_columns _, ?_⟩, rfl⟩
  cases historical_results_list <;> rfl

/-- Helper: every entry of an outcome list is Tài or Xỉu, so the two counts
partition the list. -/
theorem count_tai_add_count_xiu (l : List Outcome) :
    l.count Outcome.Tai + l.count Outcome.Xiu = l.length := by
  induction l with
  | nil => rfl
  | cons a t ih =>
    cases a <;> simp [List.count_cons] <;> omega

/-- Helper: on a non-empty window the Tài ratio and the Xỉu ratio add to 1. -/
theorem ratio_of_partition (l : List Outcome) (hl : l ≠ []) :
    ratio_of l Outcome.Tai + ratio_of l Outcome.Xiu = 1 := by
  have hlen : 0 < l.length := List.length_pos.mpr hl
  have hne : (l.length : ℚ) ≠ 0 := by
    exact_mod_cast Nat.pos_iff_ne_zero.mp hlen
  rw [ratio_of, ratio_of, if_pos hlen, if_pos hlen, div_add_div_same]
  rw [← Nat.cast_add, count_tai_add_count_xiu, div_self hne]

/-- Helper: a positive-size window taken from a non-empty list is non-empty. -/
theorem take_ne_nil_of_ne_nil {l : List Outcome} (hl : l ≠ []) {n : Nat}
    (hn : 0 < n) : l.take n ≠ [] := by
  intro hnil
  rcases List.take_eq_nil_iff.mp hnil with h | h
  · omega
  · exact hl h

/-- C10: for every non-empty history (entries are Tài or Xỉu by the type of
`Outcome`), the extracted feature values tai_ratio_last_N and xiu_ratio_last_N
sum to exactly 1 for each window size N in 5, 10, 20, since each windowed
count of the two labels partitions the window. -/
theorem C10_ratio_partition (historical_results_list : List Outcome)
    (hne : historical_results_list ≠ []) :
    extract_features historical_results_list =
      feature_row (build_features historical_results_list) ∧
    (build_features historical_results_list).tai_ratio_last_5 +
      (build_features historical_results_list).xiu_ratio_last_5 = 1 ∧
    (build_features historical_results_list).tai_ratio_last_10 +
      (build_features historical_results_list).xiu_ratio_last_10 = 1 ∧
    (build_features historical_results_list).tai_ratio_last_20 +
      (build_features historical_results_list).xiu_ratio_last_20 = 1 := by
  refine ⟨?_, ?_, ?_, ?_⟩
  · rw [extract_features, if_neg (by simpa [List.isEmpty_iff] using hne)]
  · exact ratio_of_partition _ (take_ne_nil_of_ne_nil hne (by omega))
  · exact ratio_of_partition _ (take_ne_nil_of_ne_nil hne (by omega))
  · exact ratio_of_partition _ (take_ne_nil_of_ne_nil hne (by omega))

/-- C10 witness: the theorem applied to the one-entry history [Tài]. -/
theorem C10_ratio_partition_witness :
    extract_features [Outcome.Tai] = feature_row (build_features [Outcome.Tai]) ∧
    (build_features [Outcome.Tai]).tai_ratio_last_5 +
      (build_features [Outcome.Tai]).xiu_ratio_last_5 = 1 ∧
    (build_features [Outcome.Tai]).tai_ratio_last_10 +
      (build_features [Outcome.Tai]).xiu_ratio_last_10 = 1 ∧
    (build_features [Outcome.Tai]).tai_ratio_last_20 +
      (build_features [Outcome.Tai]).xiu_ratio_last_20 = 1 :=
  C10_ratio_partition [Outcome.Tai] (by decide)

/-- One iteration of the training-pair loop of `create_training_data`
(src/features.py, lines 135-147): append the feature row of the strictly
older sub-history and the label at `label_idx`, guarded exactly as the
source guards (non-empty sub-history, column contract intact). -/
def training_step (all_historical_results : List Outcome)
    (acc : List (List (String × ℚ)) × List Outcome) (label_idx : Nat) :
    List (List (String × ℚ)) × List Outcome :=
  let label := all_historical_results.getD label_idx Outcome.Tai
  let history_for_features := all_historical_results.drop (label_idx + 1)
  if history_for_features.isEmpty then acc
  else
    let features_row := extract_features history_for_features
    if features_row.map Prod.fst = FEATURE_COLUMNS then
      (acc.1 ++ [features_row], acc.2 ++ [label])
    else acc

/-- Embedding of `create_training_data` (src/features.py, lines 118-155):
the pair (X, y) of the feature rows and the label series. -/
def create_training_data (all_historical_results : List Outcome) :
    List (List (String × ℚ)) × List Outcome :=
  if all_historical_results.length < 2 then ([], [])
  else
    let result := (List.range (all_historical_results.length - 1)).foldl
      (training_step all_historical_results) ([], [])
    if result.1.isEmpty then ([], []) else result

/-- Helper: over indices whose successor stays inside the history, the
training loop appends exactly one (row, label) pair per index. -/
theorem training_foldl_spec (all_historical_results : List Outcome)
    (idxs : List Nat) (hidx : ∀ i ∈ idxs, i + 1 < all_historical_results.length)
    (acc1 : List (List (String × ℚ))) (acc2 : List Outcome) :
    idxs.foldl (training_step all_historical_results) (acc1, acc2) =
      (acc1 ++ idxs.map
        (fun i => extract_features (all_historical_results.drop (i + 1))),
       acc2 ++ idxs.map
        (fun i => all_historical_results.getD i Outcome.Tai)) := by
  induction idxs generalizing acc1 acc2 with
  | nil => simp
  | cons i rest ih =>
    have hi : i + 1 < all_historical_results.length := hidx i (by simp)
    have hdrop : ¬ (all_historical_results.drop (i + 1)).isEmpty = true := by
      rw [List.isEmpty_iff, List.drop_eq_nil_iff]
      omega
    have hstep : training_step all_historical_results (acc1, acc2) i =
        (acc1 ++ [extract_features (all_historical_results.drop (i + 1))],
         acc2 ++ [all_historical_results.getD i Outcome.Tai]) := by
      simp [training_step, hdrop, extract_features_columns]
    rw [List.foldl_cons, hstep,
      ih (fun j hj => hidx j (by simp [hj])) _ _]
    simp

/-- C9: for every outcome history of length n at least 2 (most-recent-first),
`create_training_data` produces exactly n-1 (feature-vector, label) pairs,
where the pair for each position i in 0..n-2 has label equal to the outcome at
position i and feature vector equal to `extract_features` applied to the
strictly older sub-history (drop (i+1)); for n smaller than 2 it returns the
empty dataset. -/
theorem C9_training_pairs (all_historical_results : List Outcome) :
    (2 ≤ all_historical_results.length →
      create_training_data all_historical_results =
        ((List.range (all_historical_results.length - 1)).map
          (fun i => extract_features (all_historical_results.drop (i + 1))),
         (List.range (all_historical_results.length - 1)).map
          (fun i => all_historical_results.getD i Outcome.Tai))) ∧
    (all_historical_results.length < 2 →
      create_training_data all_historical_results = ([], [])) := by
  constructor
  · intro hlen
    rw [create_training_data, if_neg (by omega)]
    rw [training_foldl_spec all_historical_results _
      (fun i hi => by
        have := List.mem_range.mp hi
        omega) [] []]
    simp only [List.nil_append]
    rw [if_neg ?_]
    rw [List.isEmpty_iff, List.map_eq_nil_iff, List.range_eq_nil]
    omega
  · intro hlen
    rw [create_training_data, if_pos hlen]

/-- C9 witness: the theorem applied to the length-3 history [Tài, Xỉu, Xỉu]
(two pairs produced) and to the length-1 history [Tài] (empty dataset). -/
theorem C9_training_pairs_witness :
    create_training_data [Outcome.Tai, Outcome.Xiu, Outcome.Xiu] =
      ((List.range 2).map
        (fun i =>
          extract_features
            ([Outcome.Tai, Outcome.Xiu, Outcome.Xiu].drop (i + 1))),
       (List.range 2).map
        (fun i => [Outcome.Tai, Outcome.Xiu, Outcome.Xiu].getD i Outcome.Tai)) ∧
    create_training_data [Outcome.Tai] = ([], []) :=
  ⟨(C9_training_pairs [Outcome.Tai, Outcome.Xiu, Outcome.Xiu]).1 (by decide),
   (C9_training_pairs [Outcome.Tai]).2 (by decide)⟩

/-- Stored row of the `phien_tai_xiu` table (src/main.py, lines 26-39).
`expect_string` is the unique session identifier; the `open_time` timestamp is
carried as its already-formatted string. -/
structure PhienTaiXiu where
  expect_string : String
  open_time : String
  ket_qua : Outcome
  tong : Nat
  xuc_xac_1 : Nat
  xuc_xac_2 : Nat
  xuc_xac_3 : Nat
deriving DecidableEq, Repr

/-- Number of stored rows carrying a given session identifier. -/
def count_expect (store : List PhienTaiXiu) (expect_str : String) : Nat :=
  store.countP (fun q => q.expect_string = expect_str)

/-- Insert against the `unique=True` constraint on `expect_string`
(src/main.py, line 31): a row whose identifier is already present is rejected
with `IntegrityError`, modelled as `Except.error`. -/
def db_insert (store : List PhienTaiXiu) (p : PhienTaiXiu) :
    Except Unit (List PhienTaiXiu) :=
  if store.any (fun q => q.expect_string = p.expect_string) then Except.error ()
  else Except.ok (store ++ [p])

/-- Outcome of one commit step of the ingestion loop; all three constructors
mark the session as processed (the source updates `last_processed_expect` in
each of the corresponding branches). -/
inductive IngestOutcome
  | saved
  | skippedExisting
  | duplicateRace
deriving DecidableEq, Repr

/-- Embedding of the dedup-and-commit step of
`fetch_data_from_external_api_in_background` (src/main.py, lines 171-204).
`concurrent` is the list of rows committed by other writers between this
existence check of this iteration and its own insert (empty when no race);
the `except IntegrityError` branch of the source (rollback, keep going, mark
processed) is the `duplicateRace` result. -/
def process_session (store concurrent : List PhienTaiXiu) (new_phien : PhienTaiXiu) :
    List PhienTaiXiu × IngestOutcome :=
  match store.find? (fun q => q.expect_string = new_phien.expect_string) with
  | some _ => (store ++ concurrent, IngestOutcome.skippedExisting)
  | none =>
    match db_insert (store ++ concurrent) new_phien with
    | Except.ok committed => (committed, IngestOutcome.saved)
    | Except.error _ => (store ++ concurrent, IngestOutcome.duplicateRace)

/-- C8: a record whose session identifier is already present is treated as
success and leaves the store unchanged, so ingesting the same session twice,
sequentially or after losing an insert race (IntegrityError), results in
exactly one stored row for that identifier. -/
theorem C8_idempotent_ingest (store concurrent : List PhienTaiXiu)
    (p : PhienTaiXiu) (h0 : count_expect store p.expect_string = 0)
    (h1 : count_expect concurrent p.expect_string = 1) :
    ((process_session store [] p).2 = IngestOutcome.saved ∧
      count_expect (process_session store [] p).1 p.expect_string = 1) ∧
    (process_session (process_session store [] p).1 [] p =
      ((process_session store [] p).1, IngestOutcome.skippedExisting)) ∧
    ((process_session store concurrent p).2 = IngestOutcome.duplicateRace ∧
      count_expect (process_session store concurrent p).1 p.expect_string = 1) := by
  have habs : ∀ q ∈ store, ¬ (q.expect_string = p.expect_string) := by
    intro q hq
    have := List.countP_eq_zero.mp h0 q hq
    simpa using this
  have hfind : store.find? (fun q => q.expect_string = p.expect_string) = none :=
    List.find?_eq_none.mpr (fun q hq => by simpa using habs q hq)
  have hany : (store ++ ([] : List PhienTaiXiu)).any
      (fun q => q.expect_string = p.expect_string) = false := by
    rw [List.any_eq_false]
    intro q hq
    simpa using habs q (by simpa using hq)
  have hfirst : process_session store [] p =
      (store ++ [] ++ [p], IngestOutcome.saved) := by
    rw [process_session, hfind, db_insert, if_neg (by rw [hany]; simp)]
  have hcount1 : count_expect (store ++ [] ++ [p]) p.expect_string = 1 := by
    rw [count_expect, List.countP_append, List.countP_append]
    have : List.countP (fun q => decide (q.expect_string = p.expect_string))
        [p] = 1 := by simp
    rw [this]
    have h0' : List.countP
        (fun q => decide (q.expect_string = p.expect_string)) store = 0 := h0
    rw [h0']
    rfl
  refine ⟨⟨by rw [hfirst], by rw [hfirst]; exact hcount1⟩, ?_, ?_⟩
  · rw [hfirst]
    have hmem : p ∈ store ++ [] ++ [p] := by simp
    cases hf : List.find?
        (fun q : PhienTaiXiu => q.expect_string = p.expect_string)
        (store ++ [] ++ [p]) with
    | none =>
      exfalso
      have := List.find?_eq_none.mp hf p hmem
      simp at this
    | some q =>
      rw [process_session, hf]
      simp
  · have hanyc : (store ++ concurrent).any
        (fun q => q.expect_string = p.expect_string) = true := by
      rw [List.any_append]
      have hca2 : concurrent.any (fun q => q.expect_string = p.expect_string)
          = true := by
        rcases hca : concurrent.any
            (fun q => q.expect_string = p.expect_string) with _ | _
        · exfalso
          have hall := List.any_eq_false.mp hca
          have hc0 : count_expect concurrent p.expect_string = 0 :=
            List.countP_eq_zero.mpr hall
          omega
        · rfl
      rw [hca2, Bool.or_true]
    constructor
    · rw [process_session, hfind, db_insert, if_pos hanyc]
    · rw [process_session, hfind, db_insert, if_pos hanyc]
      rw [count_expect, List.countP_append]
      have h0' : List.countP
          (fun q => decide (q.expect_string = p.expect_string)) store = 0 := h0
      have h1' : List.countP
          (fun q => decide (q.expect_string = p.expect_string)) concurrent = 1 :=
        h1
      omega

/-- C8 witness: the theorem applied to the empty store, one racing writer that
commits session "100", and a record for session "100". -/
theorem C8_idempotent_ingest_witness :
    ((process_session [] []
        ⟨"100", "2024-01-01 00:00:00", Outcome.Tai, 12, 3, 4, 5⟩).2 =
          IngestOutcome.saved ∧
      count_expect (process_session [] []
        ⟨"100", "2024-01-01 00:00:00", Outcome.Tai, 12, 3, 4, 5⟩).1 "100" =
          1) ∧
    (process_session
        (process_session [] []
          ⟨"100", "2024-01-01 00:00:00", Outcome.Tai, 12, 3, 4, 5⟩).1 []
        ⟨"100", "2024-01-01 00:00:00", Outcome.Tai, 12, 3, 4, 5⟩ =
      ((process_session [] []
          ⟨"100", "2024-01-01 00:00:00", Outcome.Tai, 12, 3, 4, 5⟩).1,
        IngestOutcome.skippedExisting)) ∧
    ((process_session []
        [⟨"100", "2024-01-01 00:00:00", Outcome.Xiu, 10, 2, 3, 5⟩]
        ⟨"100", "2024-01-01 00:00:00", Outcome.Tai, 12, 3, 4, 5⟩).2 =
          IngestOutcome.duplicateRace ∧
      count_expect (process_session []
        [⟨"100", "2024-01-01 00:00:00", Outcome.Xiu, 10, 2, 3, 5⟩]
        ⟨"100", "2024-01-01 00:00:00", Outcome.Tai, 12, 3, 4, 5⟩).1 "100" =
          1) :=
  C8_idempotent_ingest []
    [⟨"100", "2024-01-01 00:00:00", Outcome.Xiu, 10, 2, 3, 5⟩]
    ⟨"100", "2024-01-01 00:00:00", Outcome.Tai, 12, 3, 4, 5⟩
    (by decide) (by decide)

/-- Formatted history entry of the endpoint response (src/main.py,
lines 258-268). -/
structure LichSuItem where
  phien : String
  ket_qua : Outcome
  tong : Nat
  xuc_xac_1 : Nat
  xuc_xac_2 : Nat
  xuc_xac_3 : Nat
  open_time : String
deriving DecidableEq, Repr

/-- Response body of the `/api/taixiu` endpoint (src/main.py, lines 279-291). -/
structure ApiResponse where
  ket_qua_phien_hien_tai : Outcome
  ma_phien_hien_tai : String
  tong_diem_hien_tai : Nat
  xuc_xac_hien_tai : List Nat
  admin_name : String
  lich_su_gan_nhat : List LichSuItem
  du_doan_phien_tiep_theo : PredictResult
deriving DecidableEq, Repr

/-- HTTPException as the endpoint raises it: a status code and a detail
message. -/
structure HTTPErrorModel where
  status_code : Nat
  detail : String
deriving DecidableEq, Repr

/-- The query `order_by(PhienTaiXiu.expect_string.desc())` (src/main.py,
lines 241 and 255): the stored rows sorted by `expect_string` descending. -/
def query_order_desc (store : List PhienTaiXiu) : List PhienTaiXiu :=
  store.mergeSort (fun a b => decide (b.expect_string ≤ a.expect_string))

/-- Body of the `try` block of `get_taixiu_data_with_history_and_prediction`
(src/main.py, lines 239-291): the `raise HTTPException(404, ...)` on an empty
store is an `Except.error`; on a non-empty store the latest session, the
display history (first 20 of the first 100 rows) and the prediction over the
outcomes of the first 100 rows are assembled.  `coin` models `random.choice`
inside the predictor. -/
def endpoint_try_body (coin : Outcome) (store : List PhienTaiXiu) :
    Except HTTPErrorModel ApiResponse :=
  match (query_order_desc store).head? with
  | none =>
    Except.error ⟨404,
      "Chưa có dữ liệu phiên nào được xử lý. Vui lòng thử lại sau khi hệ thống đã cập nhật phiên đầu tiên."⟩
  | some current_phien_record =>
    let lich_su := (query_order_desc store).take 100
    let lich_su_formatted_full := lich_su.map (fun p =>
      LichSuItem.mk p.expect_string p.ket_qua p.tong p.xuc_xac_1 p.xuc_xac_2
        p.xuc_xac_3 p.open_time)
    let lich_su_formatted_display := lich_su_formatted_full.take 20
    let historical_outcomes := lich_su_formatted_full.map LichSuItem.ket_qua
    let prediction := analyze_patterns_and_predict coin historical_outcomes
    Except.ok
      ⟨current_phien_record.ket_qua, current_phien_record.expect_string,
        current_phien_record.tong,
        [current_phien_record.xuc_xac_1, current_phien_record.xuc_xac_2,
          current_phien_record.xuc_xac_3],
        "Nhutquang", lich_su_formatted_display, prediction⟩

/-- Embedding of `get_taixiu_data_with_history_and_prediction` (src/main.py,
lines 234-297).  In the source, `HTTPException` subclasses `Exception`, so the
404 raised inside the `try` block is caught by the blanket
`except Exception as e` handler (line 293) and replaced by a 500 whose detail
interpolates the caught exception; the wrapper models exactly that. -/
def get_taixiu_data_with_history_and_prediction (coin : Outcome)
    (store : List PhienTaiXiu) : Except HTTPErrorModel ApiResponse :=
  match endpoint_try_body coin store with
  | Except.ok response => Except.ok response
  | Except.error e =>
    Except.error ⟨500,
      "Lỗi không xác định trong quá trình xử lý yêu cầu: " ++ e.detail ++
        ". Vui lòng kiểm tra logs để biết thêm chi tiết."⟩

/-- C3: with an empty session store the query endpoint does NOT return an
explicit no-data status: the 404 "no data yet" HTTPException constructed at
src/main.py line 244 is raised inside the `try` block and caught by the
blanket `except Exception` at line 293, which re-raises it as a 500 internal
server error — an error code that implies system failure.  This theorem
evaluates the endpoint at the failing input (empty store) and documents the
divergence from the claim. -/
theorem C3_empty_store_500 :
    get_taixiu_data_with_history_and_prediction Outcome.Tai [] =
      Except.error ⟨500,
        "Lỗi không xác định trong quá trình xử lý yêu cầu: " ++
          "Chưa có dữ liệu phiên nào được xử lý. Vui lòng thử lại sau khi hệ thống đã cập nhật phiên đầu tiên." ++
          ". Vui lòng kiểm tra logs để biết thêm chi tiết."⟩ ∧
    (500 : Nat) ≠ 404 := by
  constructor
  · simp [get_taixiu_data_with_history_and_prediction, endpoint_try_body,
      query_order_desc, List.mergeSort]
  · decide
